import Mathlib

/-!
Verification of the nocodbgo client library (a Go client for the NocoDB v2
REST API) against its natural-language specification.

The Go sources are shallowly embedded: pure string formatting becomes Lean
string functions, Go maps become association lists, JSON values decoded by
encoding/json become an inductive type whose numbers are rationals
(encoding/json decodes every JSON number into float64; rationals model the
numeric payload), Go `int` becomes the unbounded `Int`, and every fallible
operation returns `Except`. The HTTP transport is an external collaborator
and is modelled by an oracle function from requests to responses; each
builder `Execute` returns the (unchanged) builder state, the list of HTTP
requests it issued through the oracle, and its result.
-/

namespace Nocodb

/-- JSON values as produced by Go's encoding/json when decoding into `any`:
numbers are modelled as rationals (encoding/json uses float64), objects as
association lists with unique keys. -/
inductive Json where
  | null : Json
  | bool (b : Bool) : Json
  | num (q : Rat) : Json
  | str (s : String) : Json
  | arr (elems : List Json) : Json
  | obj (fields : List (String × Json)) : Json
deriving Repr

/-- Embeds the `Filter` struct of filter.go. The Go `Value any` and
`SubValues []any` fields are rendered with `fmt.Sprintf("%v", v)`; the
embedding carries the rendered strings, and operators carry their token
string (the Go operator types are string types). -/
structure Filter where
  Column : String
  Operator : String
  Value : String
  SubValues : List String
deriving Repr, DecidableEq

/-- Embeds `Filter.String` of filter.go: with no sub-values the filter
renders as `(Column,Operator,Value)`; otherwise the value part is the value
followed by the sub-values joined by commas. -/
def Filter.render (f : Filter) : String :=
  if f.SubValues = [] then
    "(" ++ f.Column ++ "," ++ f.Operator ++ "," ++ f.Value ++ ")"
  else
    "(" ++ f.Column ++ "," ++ f.Operator ++ "," ++
      String.intercalate "," (f.Value :: f.SubValues) ++ ")"

/-- Embeds the `FilterGroup` struct of filter.go: directly-added filters,
nested groups, and a logical operator token (the Go `LogicalOperator` is a
string type; its values are the tokens `~and`, `~or`, `~not`). -/
inductive FilterGroup where
  | mk (Filters : List Filter) (Groups : List FilterGroup) (Operator : String)
deriving Repr

/-- Projection of the directly-added filters of a group. -/
def FilterGroup.Filters : FilterGroup → List Filter
  | .mk fs _ _ => fs

/-- Projection of the nested groups of a group. -/
def FilterGroup.Groups : FilterGroup → List FilterGroup
  | .mk _ gs _ => gs

/-- Projection of the logical operator token of a group. -/
def FilterGroup.Operator : FilterGroup → String
  | .mk _ _ op => op

/-- Embeds `FilterGroup.AddFilter` of filter.go: appends a filter. -/
def FilterGroup.AddFilter (fg : FilterGroup) (f : Filter) : FilterGroup :=
  .mk (fg.Filters ++ [f]) fg.Groups fg.Operator

/-- Embeds `FilterGroup.AddGroup` of filter.go: appends a nested group. -/
def FilterGroup.AddGroup (fg : FilterGroup) (g : FilterGroup) : FilterGroup :=
  .mk fg.Filters (fg.Groups ++ [g]) fg.Operator

mutual

/-- Embeds `FilterGroup.String` of filter.go: the parts are the renderings
of the direct filters followed by the renderings of the nested groups; a
single part is returned as is, otherwise the parts are joined by the
operator token and wrapped in parentheses. -/
def FilterGroup.render : FilterGroup → String
  | .mk fs gs op =>
    let parts := fs.map Filter.render ++ FilterGroup.renderList gs
    if parts.length = 1 then parts.headD ""
    else "(" ++ String.intercalate op parts ++ ")"

/-- Renders a list of filter groups in order (the loop over `fg.Groups` in
`FilterGroup.String`). -/
def FilterGroup.renderList : List FilterGroup → List String
  | [] => []
  | g :: gs => FilterGroup.render g :: FilterGroup.renderList gs

end

/-- Embeds `WithFilter` of filter.go: sets the `where` query parameter to
the rendered filter. Query values are modelled as key-value lists with
unique keys; `qset` is url.Values.Set. -/
def qset (query : List (String × String)) (k v : String) : List (String × String) :=
  query.filter (fun kv => kv.1 ≠ k) ++ [(k, v)]

/-- Lookup of a query parameter (url.Values.Get). -/
def qget (query : List (String × String)) (k : String) : Option String :=
  (query.find? (fun kv => kv.1 = k)).map (fun kv => kv.2)

/-- Embeds `WithFilter` of filter.go. -/
def WithFilter (f : Filter) (values : List (String × String)) : List (String × String) :=
  qset values "where" f.render

namespace filterable

/-- Embeds `filterable.Where` of shared_filterable.go over the accumulated
`rawFilters` list: a non-empty raw filter expression is appended, an empty
one is ignored. -/
def Where (fs : List String) (filter : String) : List String :=
  if filter ≠ "" then fs ++ [filter] else fs

/-- Embeds `filterable.WhereIsEqualTo` of shared_filterable.go. -/
def WhereIsEqualTo (fs : List String) (column value : String) : List String :=
  fs ++ ["(" ++ column ++ ",eq," ++ value ++ ")"]

/-- Embeds `filterable.WhereIsNotEqualTo` of shared_filterable.go. -/
def WhereIsNotEqualTo (fs : List String) (column value : String) : List String :=
  fs ++ ["(" ++ column ++ ",neq," ++ value ++ ")"]

/-- Embeds `filterable.WhereIsGreaterThan` of shared_filterable.go. -/
def WhereIsGreaterThan (fs : List String) (column value : String) : List String :=
  fs ++ ["(" ++ column ++ ",gt," ++ value ++ ")"]

/-- Embeds `filterable.WhereIsGreaterThanOrEqual` of shared_filterable.go. -/
def WhereIsGreaterThanOrEqual (fs : List String) (column value : String) : List String :=
  fs ++ ["(" ++ column ++ ",ge," ++ value ++ ")"]

/-- Embeds `filterable.WhereIsLessThan` of shared_filterable.go. -/
def WhereIsLessThan (fs : List String) (column value : String) : List String :=
  fs ++ ["(" ++ column ++ ",lt," ++ value ++ ")"]

/-- Embeds `filterable.WhereIsLessThanOrEqual` of shared_filterable.go. -/
def WhereIsLessThanOrEqual (fs : List String) (column value : String) : List String :=
  fs ++ ["(" ++ column ++ ",le," ++ value ++ ")"]

/-- Embeds `filterable.WhereIsNull` of shared_filterable.go. -/
def WhereIsNull (fs : List String) (column : String) : List String :=
  fs ++ ["(" ++ column ++ ",is,null)"]

/-- Embeds `filterable.WhereIsNotNull` of shared_filterable.go. -/
def WhereIsNotNull (fs : List String) (column : String) : List String :=
  fs ++ ["(" ++ column ++ ",isnot,null)"]

/-- Embeds `filterable.WhereIsTrue` of shared_filterable.go. -/
def WhereIsTrue (fs : List String) (column : String) : List String :=
  fs ++ ["(" ++ column ++ ",is,true)"]

/-- Embeds `filterable.WhereIsFalse` of shared_filterable.go. -/
def WhereIsFalse (fs : List String) (column : String) : List String :=
  fs ++ ["(" ++ column ++ ",is,false)"]

/-- Embeds `filterable.WhereIsIn` of shared_filterable.go: a no-op on an
empty value list, otherwise the values are joined by commas. -/
def WhereIsIn (fs : List String) (column : String) (values : List String) : List String :=
  if values = [] then fs
  else fs ++ ["(" ++ column ++ ",in," ++ String.intercalate "," values ++ ")"]

/-- Embeds `filterable.WhereIsBetween` of shared_filterable.go. -/
def WhereIsBetween (fs : List String) (column min max : String) : List String :=
  fs ++ ["(" ++ column ++ ",btw," ++ min ++ "," ++ max ++ ")"]

/-- Embeds `filterable.WhereIsNotBetween` of shared_filterable.go. -/
def WhereIsNotBetween (fs : List String) (column min max : String) : List String :=
  fs ++ ["(" ++ column ++ ",nbtw," ++ min ++ "," ++ max ++ ")"]

/-- Embeds `filterable.WhereIsLike` of shared_filterable.go. -/
def WhereIsLike (fs : List String) (column value : String) : List String :=
  fs ++ ["(" ++ column ++ ",like," ++ value ++ ")"]

/-- Embeds `filterable.WhereIsNotLike` of shared_filterable.go. -/
def WhereIsNotLike (fs : List String) (column value : String) : List String :=
  fs ++ ["(" ++ column ++ ",nlike," ++ value ++ ")"]

/-- Embeds `filterable.WhereIsWithin` of shared_filterable.go. -/
def WhereIsWithin (fs : List String) (column subOperation : String) : List String :=
  fs ++ ["(" ++ column ++ ",within," ++ subOperation ++ ")"]

/-- Embeds `filterable.WhereIsAllOf` of shared_filterable.go. -/
def WhereIsAllOf (fs : List String) (column : String) (values : List String) : List String :=
  if values = [] then fs
  else fs ++ ["(" ++ column ++ ",allof," ++ String.intercalate "," values ++ ")"]

/-- Embeds `filterable.WhereIsAnyOf` of shared_filterable.go. -/
def WhereIsAnyOf (fs : List String) (column : String) (values : List String) : List String :=
  if values = [] then fs
  else fs ++ ["(" ++ column ++ ",anyof," ++ String.intercalate "," values ++ ")"]

/-- Embeds `filterable.WhereIsNotAllOf` of shared_filterable.go. -/
def WhereIsNotAllOf (fs : List String) (column : String) (values : List String) : List String :=
  if values = [] then fs
  else fs ++ ["(" ++ column ++ ",nallof," ++ String.intercalate "," values ++ ")"]

/-- Embeds `filterable.WhereIsNotAnyOf` of shared_filterable.go. -/
def WhereIsNotAnyOf (fs : List String) (column : String) (values : List String) : List String :=
  if values = [] then fs
  else fs ++ ["(" ++ column ++ ",nanyof," ++ String.intercalate "," values ++ ")"]

end filterable

namespace filters

/-- Embeds `filters.Where` of filters.go (identical body to
`filterable.Where` of shared_filterable.go). -/
def Where (fs : List String) (filter : String) : List String :=
  if filter ≠ "" then fs ++ [filter] else fs

/-- Embeds `filters.WhereEqualsTo` of filters.go. -/
def WhereEqualsTo (fs : List String) (column value : String) : List String :=
  fs ++ ["(" ++ column ++ ",eq," ++ value ++ ")"]

/-- Embeds `filters.WhereIsIn` of filters.go: a no-op on an empty value
list, otherwise the values are joined by commas. -/
def WhereIsIn (fs : List String) (column : String) (values : List String) : List String :=
  if values = [] then fs
  else fs ++ ["(" ++ column ++ ",in," ++ String.intercalate "," values ++ ")"]

end filters

/-! Transport layer (client.go): the NocoDB client, request building and
status-code classification. Go integers are modelled as unbounded `Int`. -/

/-- Embeds the `Client` struct of client.go. The Go `http.Client` handle is
the external transport collaborator and is modelled by the oracle argument
of the execute functions. -/
structure Client where
  baseURL : String
  apiToken : String
deriving Repr, DecidableEq

/-- Embeds the `Table` struct of client.go. -/
structure Table where
  client : Client
  tableID : String
deriving Repr, DecidableEq

/-- Request sent through `Client.request` of client.go: HTTP method, path,
optional JSON body, query parameters, and the value of the `xc-token`
authentication header. -/
structure Request where
  method : String
  path : String
  body : Option Json
  query : List (String × String)
  xcToken : String
deriving Repr

/-- HTTP response as seen by `Client.request`: the status code and the raw
body. A body that is not valid JSON is modelled as `none`; a valid JSON
body is carried as the parsed value. -/
structure HTTPResponse where
  statusCode : Int
  body : Option Json
deriving Repr

/-- Embeds the `APIError` struct of types.go (JSON keys `msg` and `code`). -/
structure APIError where
  Message : String
  Code : String
deriving Repr, DecidableEq

/-- Result of Go's json.Unmarshal into a string struct field: an absent key
or a JSON null leaves the zero value, a JSON string is taken verbatim, any
other JSON value is a decoding error (`none`). -/
def unmarshalStringField : Option Json → Option String
  | Option.none => some ""
  | some Json.null => some ""
  | some (Json.str s) => some s
  | some _ => none

/-- Lookup of a key in a decoded JSON object (Go map indexing). -/
def jsonLookup (fields : List (String × Json)) (key : String) : Option Json :=
  (fields.find? (fun kv => kv.1 = key)).map (fun kv => kv.2)

/-- Embeds json.Unmarshal of an error body into `APIError` (client.go):
succeeds on JSON null (zero value) or on a JSON object whose `msg` and
`code` fields, when present, are strings or null; fails on any other JSON
value. -/
def unmarshalAPIError : Json → Option APIError
  | Json.null => some { Message := "", Code := "" }
  | Json.obj kvs => do
      let m ← unmarshalStringField (jsonLookup kvs "msg")
      let c ← unmarshalStringField (jsonLookup kvs "code")
      pure { Message := m, Code := c }
  | _ => none

/-- Errors produced by `Client.request` of client.go after the HTTP call:
either the error body failed to unmarshal as an `APIError`, or the API
error with its message. Both carry the status code (the Go code formats it
into the error message). -/
inductive RequestError where
  | unmarshalAPIErrorFailed (statusCode : Int)
  | apiError (statusCode : Int) (message : String)
deriving Repr, DecidableEq

/-- Embeds the status-code classification at the end of `Client.request`
(client.go): a status below 400 returns the raw body and no error; a status
of 400 or more returns no body and an error built from the decoded
`APIError` body, or a decoding-failure error when the body is not valid
JSON or does not unmarshal into `APIError`. -/
def requestClassify (statusCode : Int) (body : Option Json) :
    Except RequestError (Option Json) :=
  if 400 ≤ statusCode then
    match body with
    | Option.none => .error (.unmarshalAPIErrorFailed statusCode)
    | some j =>
      match unmarshalAPIError j with
      | Option.none => .error (.unmarshalAPIErrorFailed statusCode)
      | some apiErr => .error (.apiError statusCode apiErr.Message)
  else
    .ok body

/-- Embeds `Client.request` of client.go given a transport oracle: builds
the request, performs exactly one HTTP call through the oracle, and
classifies the response by status code. Returns the list of issued
requests together with the classified outcome. -/
def clientRequest (c : Client) (oracle : Request → HTTPResponse)
    (method path : String) (body : Option Json) (query : List (String × String)) :
    List Request × Except RequestError (Option Json) :=
  let req : Request :=
    { method := method, path := path, body := body, query := query, xcToken := c.apiToken }
  let resp := oracle req
  ([req], requestClassify resp.statusCode resp.body)

/-! Pagination (provider_pagination.go and the listBuilder of
query_builders.go). -/

/-- Embeds the `paginationProvider` state of provider_pagination.go. -/
structure PaginationState where
  rawLimit : Int
  rawOffset : Int
deriving Repr, DecidableEq

/-- Embeds `paginationProvider.Page` of provider_pagination.go: ignores a
page or page size below one, otherwise sets the limit to the page size and
the offset to `(page - 1) * pageSize`. -/
def paginationPage (p : PaginationState) (page pageSize : Int) : PaginationState :=
  if page < 1 ∨ pageSize < 1 then p
  else { rawLimit := pageSize, rawOffset := (page - 1) * pageSize }

/-- Embeds `paginationProvider.Limit` of provider_pagination.go. -/
def paginationLimit (p : PaginationState) (limit : Int) : PaginationState :=
  if limit < 1 then p else { p with rawLimit := limit }

/-- Embeds `paginationProvider.Offset` of provider_pagination.go. -/
def paginationOffset (p : PaginationState) (offset : Int) : PaginationState :=
  if offset < 0 then p else { p with rawOffset := offset }

/-- Embeds `paginationProvider.apply` of provider_pagination.go: sets the
`limit` and `offset` query parameters to the decimal renderings of the
stored values, each only when strictly positive. (The Go nil-values guard
has no counterpart: the query is always a value here.) -/
def paginationApply (p : PaginationState) (query : List (String × String)) :
    List (String × String) :=
  let query := if 0 < p.rawLimit then qset query "limit" (toString p.rawLimit) else query
  if 0 < p.rawOffset then qset query "offset" (toString p.rawOffset) else query

/-- Embeds the `listBuilder` struct of query_builders.go (the table is
carried as its ID plus client; the context is external). -/
structure ListBuilder where
  table : Table
  filters : List String
  sorts : List String
  limit : Int
  offset : Int
  fields : List String
  shuffle : Bool
deriving Repr, DecidableEq

/-- Embeds `listBuilder.Page` of query_builders.go: a page below one is
clamped to one, a page size below one is clamped to ten, then the limit
becomes the page size and the offset `(page - 1) * pageSize`. -/
def ListBuilder.Page (b : ListBuilder) (page pageSize : Int) : ListBuilder :=
  let page := if page < 1 then 1 else page
  let pageSize := if pageSize < 1 then 10 else pageSize
  { b with limit := pageSize, offset := (page - 1) * pageSize }

/-- Embeds the query assembly of `listBuilder.Execute` of query_builders.go:
each accumulated filter is added under `where`; sorts, limit, offset,
fields and shuffle are set under their keys, limit and offset only when
strictly positive. The keys other than `where` are pairwise distinct and
set once, so url.Values.Set is appending here. -/
def ListBuilder.executeQuery (b : ListBuilder) : List (String × String) :=
  (b.filters.map (fun f => ("where", f)))
  ++ (if b.sorts.length > 0 then [("sort", String.intercalate "," b.sorts)] else [])
  ++ (if b.limit > 0 then [("limit", toString b.limit)] else [])
  ++ (if b.offset > 0 then [("offset", toString b.offset)] else [])
  ++ (if b.fields.length > 0 then [("fields", String.intercalate "," b.fields)] else [])
  ++ (if b.shuffle then [("shuffle", "1")] else [])

/-! Record and link builders and their terminal execute calls. Each execute
function returns the builder state (the Go methods never assign to their
receiver or to the client, which the embedding makes explicit by returning
the state), the list of HTTP requests issued through the transport oracle,
and the operation's result. -/

/-- Decoded JSON object, the Go `map[string]any` after json.Unmarshal. -/
abbrev RMap := List (String × Json)

/-- Go map assignment `m[k] = v` on an association list with unique keys. -/
def mapSet (m : RMap) (k : String) (v : Json) : RMap :=
  m.filter (fun kv => kv.1 ≠ k) ++ [(k, v)]

/-- Result of json.Unmarshal into `map[string]any`: null gives the nil map,
an object gives its fields, anything else is an error. -/
def unmarshalRMap : Json → Option RMap
  | Json.null => some []
  | Json.obj kvs => some kvs
  | _ => none

/-- Result of json.Unmarshal into `[]map[string]any`: null gives the nil
slice, an array of objects (or nulls) gives the list of maps, anything
else is an error. -/
def unmarshalRMapList : Json → Option (List RMap)
  | Json.null => some []
  | Json.arr xs => xs.mapM unmarshalRMap
  | _ => none

/-- Truncation of a rational toward zero, the behaviour of Go's `int(f)`
conversion on a float64. -/
def ratTrunc (q : Rat) : Int :=
  q.num.tdiv q.den

/-- Embeds the per-record ID extraction of `bulkCreateBuilder.Execute` of
client_create.go: the type assertion `record["Id"].(float64)` succeeds
exactly when the `Id` key is present and holds a JSON number, and the
number is converted with `int(id)`. -/
def recordIdAsNumber (record : RMap) : Option Int :=
  match jsonLookup record "Id" with
  | some (Json.num q) => some (ratTrunc q)
  | _ => none

/-- Embeds the ID-collection loop of `bulkCreateBuilder.Execute` of
client_create.go: records whose `Id` field is absent or not a number are
skipped without error. -/
def extractIds (response : List RMap) : List Int :=
  response.filterMap recordIdAsNumber

/-- Embeds the type assertion `record["Id"].(int)` of `Table.BulkCreate` of
client.go. Values produced by json.Unmarshal into `any` are never of Go
type `int` (JSON numbers decode into float64), so the assertion fails on
every decoded value. -/
def jsonAsGoInt : Json → Option Int :=
  fun _ => none

/-- Errors returned by the execute functions. Go wraps transported errors
in formatted messages; the embedding keeps the underlying cause. -/
inductive ExecError where
  | rowIDRequired
  | linkFieldIDRequired
  | requestFailed (e : RequestError)
  | unmarshalResponseFailed
  | chainMethodsError
  | dataConversionFailed
  | noRecordCreated
  | recordIDNotInteger
deriving Repr, DecidableEq

/-- Embeds the `bulkCreateBuilder` struct of client_create.go. A failed
struct-to-map conversion from `BulkCreateRecords` is carried in
`chainErr`. -/
structure BulkCreateBuilder where
  table : Table
  data : List RMap
  chainErr : Option String
deriving Repr

/-- Embeds `bulkCreateBuilder.Execute` of client_create.go: a chain error
short-circuits, otherwise one POST of the records to the table path; the
response is decoded as a list of JSON objects and the `Id` numbers are
collected, skipping records without a numeric `Id`. -/
def bulkCreateExecute (b : BulkCreateBuilder) (oracle : Request → HTTPResponse) :
    BulkCreateBuilder × List Request × Except ExecError (List Int) :=
  if b.chainErr.isSome then (b, [], .error .chainMethodsError)
  else
    let path := "/api/v2/tables/" ++ b.table.tableID ++ "/records"
    let (reqs, result) :=
      clientRequest b.table.client oracle "POST" path (some (Json.arr (b.data.map Json.obj))) []
    match result with
    | .error e => (b, reqs, .error (.requestFailed e))
    | .ok body =>
      match body.bind unmarshalRMapList with
      | Option.none => (b, reqs, .error .unmarshalResponseFailed)
      | some response => (b, reqs, .ok (extractIds response))

/-- Embeds the `createBuilder` struct of client_create.go. -/
structure CreateBuilder where
  table : Table
  data : RMap
  chainErr : Option String
deriving Repr

/-- Embeds `createBuilder.Execute` of client_create.go: a chain error
short-circuits, otherwise the call delegates to the bulk create builder
with the single record and returns the first created ID. -/
def createBuilderExecute (b : CreateBuilder) (oracle : Request → HTTPResponse) :
    CreateBuilder × List Request × Except ExecError Int :=
  if b.chainErr.isSome then (b, [], .error .chainMethodsError)
  else
    let inner : BulkCreateBuilder := { table := b.table, data := [b.data], chainErr := none }
    let (_, reqs, result) := bulkCreateExecute inner oracle
    match result with
    | .error e => (b, reqs, .error e)
    | .ok [] => (b, reqs, .error .noRecordCreated)
    | .ok (id :: _) => (b, reqs, .ok id)

/-- Embeds `Table.BulkCreate` of client.go: one POST of the records, then
every response record must have an `Id` passing the Go `int` type
assertion, otherwise an error is returned. -/
def tableBulkCreate (t : Table) (data : List RMap) (oracle : Request → HTTPResponse) :
    Table × List Request × Except ExecError (List Int) :=
  let path := "/api/v2/tables/" ++ t.tableID ++ "/records"
  let (reqs, result) :=
    clientRequest t.client oracle "POST" path (some (Json.arr (data.map Json.obj))) []
  match result with
  | .error e => (t, reqs, .error (.requestFailed e))
  | .ok body =>
    match body.bind unmarshalRMapList with
    | Option.none => (t, reqs, .error .unmarshalResponseFailed)
    | some response =>
      match response.mapM (fun record => (jsonLookup record "Id").bind jsonAsGoInt) with
      | Option.none => (t, reqs, .error .recordIDNotInteger)
      | some ids => (t, reqs, .ok ids)

/-- Embeds `Table.Create` of client.go: delegates to `Table.BulkCreate`
with the single record and returns the first created ID. -/
def tableCreate (t : Table) (data : RMap) (oracle : Request → HTTPResponse) :
    Table × List Request × Except ExecError Int :=
  let (_, reqs, result) := tableBulkCreate t [data] oracle
  match result with
  | .error e => (t, reqs, .error e)
  | .ok [] => (t, reqs, .error .noRecordCreated)
  | .ok (id :: _) => (t, reqs, .ok id)

/-- Embeds the `readBuilder` struct of query_builders.go. -/
structure ReadBuilder where
  table : Table
  recordID : Int
  fields : List String
deriving Repr, DecidableEq

/-- Embeds `readBuilder.Execute` of query_builders.go: record ID zero is
rejected with the row-ID-required error before any request; otherwise one
GET of the record path with the optional `fields` parameter, decoding the
response as a JSON object. -/
def readExecute (b : ReadBuilder) (oracle : Request → HTTPResponse) :
    ReadBuilder × List Request × Except ExecError RMap :=
  if b.recordID = 0 then (b, [], .error .rowIDRequired)
  else
    let query :=
      if b.fields.length > 0 then [("fields", String.intercalate "," b.fields)] else []
    let path := "/api/v2/tables/" ++ b.table.tableID ++ "/records/" ++ toString b.recordID
    let (reqs, result) := clientRequest b.table.client oracle "GET" path none query
    match result with
    | .error e => (b, reqs, .error (.requestFailed e))
    | .ok body =>
      match body.bind unmarshalRMap with
      | Option.none => (b, reqs, .error .unmarshalResponseFailed)
      | some response => (b, reqs, .ok response)

/-- Embeds the `bulkUpdateBuilder` struct of client_update.go; `data` is
`none` when the struct-to-maps conversion failed. -/
structure BulkUpdateBuilder where
  table : Table
  data : Option (List RMap)
deriving Repr

/-- Embeds `bulkUpdateBuilder.Execute` of client_update.go: nil data is an
error, otherwise one PATCH of the records to the table path. -/
def bulkUpdateExecute (b : BulkUpdateBuilder) (oracle : Request → HTTPResponse) :
    BulkUpdateBuilder × List Request × Except ExecError Unit :=
  match b.data with
  | Option.none => (b, [], .error .dataConversionFailed)
  | some data =>
    let path := "/api/v2/tables/" ++ b.table.tableID ++ "/records"
    let (reqs, result) :=
      clientRequest b.table.client oracle "PATCH" path (some (Json.arr (data.map Json.obj))) []
    match result with
    | .error e => (b, reqs, .error (.requestFailed e))
    | .ok _ => (b, reqs, .ok ())

/-- Embeds the `updateBuilder` struct of client_update.go; `data` is `none`
when the struct-to-map conversion failed. -/
structure UpdateBuilder where
  table : Table
  recordID : Int
  data : Option RMap
deriving Repr

/-- Embeds `updateBuilder.Execute` of client_update.go: record ID zero is
rejected with the row-ID-required error before any request; nil data is an
error; otherwise the record ID is added under `Id` to a copy of the data
and the call delegates to the bulk update builder. -/
def updateExecute (b : UpdateBuilder) (oracle : Request → HTTPResponse) :
    UpdateBuilder × List Request × Except ExecError Unit :=
  if b.recordID = 0 then (b, [], .error .rowIDRequired)
  else
    match b.data with
    | Option.none => (b, [], .error .dataConversionFailed)
    | some data =>
      let updateData := mapSet data "Id" (Json.num b.recordID)
      let inner : BulkUpdateBuilder := { table := b.table, data := some [updateData] }
      let (_, reqs, result) := bulkUpdateExecute inner oracle
      (b, reqs, result)

/-- Embeds the `bulkDeleteBuilder` struct of table_record_delete.go. -/
structure BulkDeleteBuilder where
  table : Table
  recordIDs : List Int
deriving Repr, DecidableEq

/-- Embeds `bulkDeleteBuilder.Execute` of table_record_delete.go: an empty
ID list returns success with no request; otherwise one DELETE of the
`{"Id": id}` objects to the table path. -/
def bulkDeleteExecute (b : BulkDeleteBuilder) (oracle : Request → HTTPResponse) :
    BulkDeleteBuilder × List Request × Except ExecError Unit :=
  if b.recordIDs = [] then (b, [], .ok ())
  else
    let ids := Json.arr (b.recordIDs.map (fun id => Json.obj [("Id", Json.num id)]))
    let path := "/api/v2/tables/" ++ b.table.tableID ++ "/records"
    let (reqs, result) := clientRequest b.table.client oracle "DELETE" path (some ids) []
    match result with
    | .error e => (b, reqs, .error (.requestFailed e))
    | .ok _ => (b, reqs, .ok ())

/-- Embeds the `deleteBuilder` struct of table_record_delete.go. -/
structure DeleteBuilder where
  table : Table
  recordID : Int
deriving Repr, DecidableEq

/-- Embeds `deleteBuilder.Execute` of table_record_delete.go: record ID
zero is rejected with the row-ID-required error before any request;
otherwise the call delegates to the bulk delete builder with the single
ID. -/
def deleteRecordExecute (b : DeleteBuilder) (oracle : Request → HTTPResponse) :
    DeleteBuilder × List Request × Except ExecError Unit :=
  if b.recordID = 0 then (b, [], .error .rowIDRequired)
  else
    let inner : BulkDeleteBuilder := { table := b.table, recordIDs := [b.recordID] }
    let (_, reqs, result) := bulkDeleteExecute inner oracle
    (b, reqs, result)

/-- Embeds the `createLinksBuilder` struct of table_links_create.go. -/
structure CreateLinksBuilder where
  table : Table
  localLinkFieldID : String
  localRecordID : Int
  targetRecordIDs : List Int
deriving Repr, DecidableEq

/-- Embeds `createLinksBuilder.Execute` of table_links_create.go: an empty
link-field ID is rejected first, then a local record ID of zero; an empty
target list returns success with no request; otherwise one POST of the
`{"Id": id}` objects to the links path. -/
def createLinksExecute (b : CreateLinksBuilder) (oracle : Request → HTTPResponse) :
    CreateLinksBuilder × List Request × Except ExecError Unit :=
  if b.localLinkFieldID = "" then (b, [], .error .linkFieldIDRequired)
  else if b.localRecordID = 0 then (b, [], .error .rowIDRequired)
  else if b.targetRecordIDs = [] then (b, [], .ok ())
  else
    let targetIDS := Json.arr (b.targetRecordIDs.map (fun id => Json.obj [("Id", Json.num id)]))
    let path := "/api/v2/tables/" ++ b.table.tableID ++ "/links/" ++ b.localLinkFieldID
      ++ "/records/" ++ toString b.localRecordID
    let (reqs, result) := clientRequest b.table.client oracle "POST" path (some targetIDS) []
    match result with
    | .error e => (b, reqs, .error (.requestFailed e))
    | .ok _ => (b, reqs, .ok ())

/-- Embeds the `createLinkBuilder` struct of table_links_create.go. -/
structure CreateLinkBuilder where
  table : Table
  localLinkFieldID : String
  localRecordID : Int
  targetRecordID : Int
deriving Repr, DecidableEq

/-- Embeds `createLinkBuilder.Execute` of table_links_create.go: validates
the link-field ID and the local record ID, returns success with no request
for a target record ID of zero, and otherwise delegates to the multi-link
builder with the single target. -/
def createLinkExecute (b : CreateLinkBuilder) (oracle : Request → HTTPResponse) :
    CreateLinkBuilder × List Request × Except ExecError Unit :=
  if b.localLinkFieldID = "" then (b, [], .error .linkFieldIDRequired)
  else if b.localRecordID = 0 then (b, [], .error .rowIDRequired)
  else if b.targetRecordID = 0 then (b, [], .ok ())
  else
    let inner : CreateLinksBuilder :=
      { table := b.table, localLinkFieldID := b.localLinkFieldID,
        localRecordID := b.localRecordID, targetRecordIDs := [b.targetRecordID] }
    let (_, reqs, result) := createLinksExecute inner oracle
    (b, reqs, result)

/-- Embeds the `deleteLinksBuilder` struct of shared_filterable.go. -/
structure DeleteLinksBuilder where
  table : Table
  localLinkFieldID : String
  localRecordID : Int
  targetRecordIDs : List Int
deriving Repr, DecidableEq

/-- Embeds `deleteLinksBuilder.Execute` of shared_filterable.go: an empty
link-field ID is rejected first, then a local record ID of zero; an empty
target list returns success with no request; otherwise one DELETE of the
`{"Id": id}` objects to the links path. -/
def deleteLinksExecute (b : DeleteLinksBuilder) (oracle : Request → HTTPResponse) :
    DeleteLinksBuilder × List Request × Except ExecError Unit :=
  if b.localLinkFieldID = "" then (b, [], .error .linkFieldIDRequired)
  else if b.localRecordID = 0 then (b, [], .error .rowIDRequired)
  else if b.targetRecordIDs = [] then (b, [], .ok ())
  else
    let ids := Json.arr (b.targetRecordIDs.map (fun id => Json.obj [("Id", Json.num id)]))
    let path := "/api/v2/tables/" ++ b.table.tableID ++ "/links/" ++ b.localLinkFieldID
      ++ "/records/" ++ toString b.localRecordID
    let (reqs, result) := clientRequest b.table.client oracle "DELETE" path (some ids) []
    match result with
    | .error e => (b, reqs, .error (.requestFailed e))
    | .ok _ => (b, reqs, .ok ())

/-- Embeds the `deleteLinkBuilder` struct of shared_filterable.go. -/
structure DeleteLinkBuilder where
  table : Table
  localLinkFieldID : String
  localRecordID : Int
  targetRecordID : Int
deriving Repr, DecidableEq

/-- Embeds `deleteLinkBuilder.Execute` of shared_filterable.go: validates
the link-field ID and the local record ID, returns success with no request
for a target record ID of zero, and otherwise delegates to the multi-link
delete builder with the single target. -/
def deleteLinkExecute (b : DeleteLinkBuilder) (oracle : Request → HTTPResponse) :
    DeleteLinkBuilder × List Request × Except ExecError Unit :=
  if b.localLinkFieldID = "" then (b, [], .error .linkFieldIDRequired)
  else if b.localRecordID = 0 then (b, [], .error .rowIDRequired)
  else if b.targetRecordID = 0 then (b, [], .ok ())
  else
    let inner : DeleteLinksBuilder :=
      { table := b.table, localLinkFieldID := b.localLinkFieldID,
        localRecordID := b.localRecordID, targetRecordIDs := [b.targetRecordID] }
    let (_, reqs, result) := deleteLinksExecute inner oracle
    (b, reqs, result)

/-- Errors returned by `decodeInto` of decode_into.go and helpers.go: the
failure is the marshal step's or the unmarshal step's, each wrapped. -/
inductive DecodeIntoError (E : Type) where
  | marshalFailed (e : E)
  | unmarshalFailed (e : E)
deriving Repr, DecidableEq

/-- Embeds `decodeInto` of decode_into.go and helpers.go: the data is
marshalled to JSON text and the text unmarshalled into the destination
type; either failure is wrapped and returned, otherwise the round-tripped
value is the result. The marshal and unmarshal steps are the
encoding/json collaborators, passed as functions. -/
def decodeInto {α β E : Type} (marshal : α → Except E String)
    (unmarshal : String → Except E β) (data : α) : Except (DecodeIntoError E) β :=
  match marshal data with
  | .error e => .error (.marshalFailed e)
  | .ok jsonData =>
    match unmarshal jsonData with
    | .error e => .error (.unmarshalFailed e)
    | .ok v => .ok v

/-! Helper lemmas. -/

theorem intercalate_go_eq_foldl (s : String) (as : List String) (acc : String) :
    String.intercalate.go acc s as = as.foldl (fun r x => r ++ s ++ x) acc := by
  induction as generalizing acc with
  | nil => rfl
  | cons a tail ih => simp only [String.intercalate.go, List.foldl_cons, ih]

theorem foldl_append_sep (s p : String) (as : List String) (b : String) :
    as.foldl (fun r x => r ++ s ++ x) (p ++ b) = p ++ as.foldl (fun r x => r ++ s ++ x) b := by
  induction as generalizing b with
  | nil => rfl
  | cons a tail ih =>
    simp only [List.foldl_cons]
    have hassoc : (p ++ b) ++ s ++ a = p ++ (b ++ s ++ a) := by
      simp [String.append_assoc]
    rw [hassoc, ih]

theorem intercalate_cons (s a : String) (l : List String) (h : l ≠ []) :
    String.intercalate s (a :: l) = a ++ s ++ String.intercalate s l := by
  match l, h with
  | b :: t, _ =>
    show String.intercalate.go a s (b :: t) = a ++ s ++ String.intercalate.go b s t
    simp only [String.intercalate.go, intercalate_go_eq_foldl]
    have hab : a ++ s ++ b = (a ++ s) ++ b := by rw [String.append_assoc]
    rw [hab, foldl_append_sep, String.append_assoc]

theorem renderList_eq_map (gs : List FilterGroup) :
    FilterGroup.renderList gs = gs.map FilterGroup.render := by
  induction gs with
  | nil => rfl
  | cons g tail ih => simp only [FilterGroup.renderList, List.map_cons, ih]

/-! Claim theorems. -/

/-- C1: every predefined filter constructor renders a filter string of the
exact form `(column,operator,value)` with its fixed operator token (eq,
neq, gt, ge, lt, le, is, isnot, in, btw, nbtw, like, nlike, within, allof,
anyof, nallof, nanyof); the multi-value constructors join the values with
commas; `Filter.String` renders `(Column,Operator,Value)` without
sub-values and `(Column,Operator,Value,Sub1,...,SubN)` with them; such
strings are sent under the `where` query parameter. -/
theorem c1_predefined_filter_constructors (fs : List String)
    (column value vmin vmax subOp : String) (values : List String) (f : Filter)
    (b : ListBuilder) (q : List (String × String)) :
    (filterable.WhereIsEqualTo fs column value = fs ++ ["(" ++ column ++ ",eq," ++ value ++ ")"]) ∧
    (filterable.WhereIsNotEqualTo fs column value = fs ++ ["(" ++ column ++ ",neq," ++ value ++ ")"]) ∧
    (filterable.WhereIsGreaterThan fs column value = fs ++ ["(" ++ column ++ ",gt," ++ value ++ ")"]) ∧
    (filterable.WhereIsGreaterThanOrEqual fs column value = fs ++ ["(" ++ column ++ ",ge," ++ value ++ ")"]) ∧
    (filterable.WhereIsLessThan fs column value = fs ++ ["(" ++ column ++ ",lt," ++ value ++ ")"]) ∧
    (filterable.WhereIsLessThanOrEqual fs column value = fs ++ ["(" ++ column ++ ",le," ++ value ++ ")"]) ∧
    (filterable.WhereIsNull fs column = fs ++ ["(" ++ column ++ ",is,null)"]) ∧
    (filterable.WhereIsNotNull fs column = fs ++ ["(" ++ column ++ ",isnot,null)"]) ∧
    (filterable.WhereIsTrue fs column = fs ++ ["(" ++ column ++ ",is,true)"]) ∧
    (filterable.WhereIsFalse fs column = fs ++ ["(" ++ column ++ ",is,false)"]) ∧
    (values ≠ [] →
      filterable.WhereIsIn fs column values =
        fs ++ ["(" ++ column ++ ",in," ++ String.intercalate "," values ++ ")"]) ∧
    (filterable.WhereIsBetween fs column vmin vmax =
      fs ++ ["(" ++ column ++ ",btw," ++ vmin ++ "," ++ vmax ++ ")"]) ∧
    (filterable.WhereIsNotBetween fs column vmin vmax =
      fs ++ ["(" ++ column ++ ",nbtw," ++ vmin ++ "," ++ vmax ++ ")"]) ∧
    (filterable.WhereIsLike fs column value = fs ++ ["(" ++ column ++ ",like," ++ value ++ ")"]) ∧
    (filterable.WhereIsNotLike fs column value = fs ++ ["(" ++ column ++ ",nlike," ++ value ++ ")"]) ∧
    (filterable.WhereIsWithin fs column subOp = fs ++ ["(" ++ column ++ ",within," ++ subOp ++ ")"]) ∧
    (values ≠ [] →
      filterable.WhereIsAllOf fs column values =
        fs ++ ["(" ++ column ++ ",allof," ++ String.intercalate "," values ++ ")"]) ∧
    (values ≠ [] →
      filterable.WhereIsAnyOf fs column values =
        fs ++ ["(" ++ column ++ ",anyof," ++ String.intercalate "," values ++ ")"]) ∧
    (values ≠ [] →
      filterable.WhereIsNotAllOf fs column values =
        fs ++ ["(" ++ column ++ ",nallof," ++ String.intercalate "," values ++ ")"]) ∧
    (values ≠ [] →
      filterable.WhereIsNotAnyOf fs column values =
        fs ++ ["(" ++ column ++ ",nanyof," ++ String.intercalate "," values ++ ")"]) ∧
    (filters.WhereEqualsTo fs column value = fs ++ ["(" ++ column ++ ",eq," ++ value ++ ")"]) ∧
    (values ≠ [] →
      filters.WhereIsIn fs column values =
        fs ++ ["(" ++ column ++ ",in," ++ String.intercalate "," values ++ ")"]) ∧
    (f.SubValues = [] →
      f.render = "(" ++ f.Column ++ "," ++ f.Operator ++ "," ++ f.Value ++ ")") ∧
    (f.SubValues ≠ [] →
      f.render = "(" ++ f.Column ++ "," ++ f.Operator ++ "," ++ f.Value ++ ","
        ++ String.intercalate "," f.SubValues ++ ")") ∧
    (("where", f.render) ∈ WithFilter f q) ∧
    (∀ w ∈ b.filters, ("where", w) ∈ b.executeQuery) := by
  refine ⟨rfl, rfl, rfl, rfl, rfl, rfl, rfl, rfl, rfl, rfl, ?_, rfl, rfl, rfl, rfl, rfl,
    ?_, ?_, ?_, ?_, rfl, ?_, ?_, ?_, ?_, ?_⟩
  · intro h; simp [filterable.WhereIsIn, h]
  · intro h; simp [filterable.WhereIsAllOf, h]
  · intro h; simp [filterable.WhereIsAnyOf, h]
  · intro h; simp [filterable.WhereIsNotAllOf, h]
  · intro h; simp [filterable.WhereIsNotAnyOf, h]
  · intro h; simp [filters.WhereIsIn, h]
  · intro h; simp [Filter.render, h]
  · intro h
    simp only [Filter.render, if_neg h, intercalate_cons "," f.Value f.SubValues h]
    simp [String.append_assoc]
  · exact List.mem_append_right _ (List.mem_singleton.mpr rfl)
  · intro w hw
    exact List.mem_append_left _ (List.mem_append_left _ (List.mem_append_left _
      (List.mem_append_left _ (List.mem_append_left _
        (List.mem_map_of_mem (fun x => ("where", x)) hw)))))

/-- Witness for C1: the in-operator constructor joins two values with a
comma, and a between filter with a sub-value renders the value part as the
two bounds joined by a comma. -/
theorem c1_witness :
    filterable.WhereIsIn [] "Age" ["5", "6"] = ["(Age,in,5,6)"] ∧
    (Filter.mk "Date" "btw" "5" ["10"]).render = "(Date,btw,5,10)" := by
  obtain ⟨-, -, -, -, -, -, -, -, -, -, hIn, -, -, -, -, -, -, -, -, -, -, -, -, hSub, -, -⟩ :=
    c1_predefined_filter_constructors [] "Age" "v" "5" "10" "w" ["5", "6"]
      (Filter.mk "Date" "btw" "5" ["10"])
      (ListBuilder.mk (Table.mk (Client.mk "u" "t") "tbl") [] [] 0 0 [] false) []
  constructor
  · rw [hIn (by decide)]; rfl
  · rw [hSub (by decide)]; rfl

/-- C2: a filter group renders its directly-added filters in insertion
order followed by its nested groups in insertion order, joined by the
group's logical operator token and wrapped in one pair of parentheses;
with exactly one member the rendering is that member's rendering without
added parentheses, and the add operations append at the end. -/
theorem c2_filter_group_rendering (fs : List Filter) (gs : List FilterGroup) (op : String) :
    ((fs.map Filter.render ++ gs.map FilterGroup.render).length ≠ 1 →
      (FilterGroup.mk fs gs op).render =
        "(" ++ String.intercalate op (fs.map Filter.render ++ gs.map FilterGroup.render) ++ ")") ∧
    (∀ f : Filter, (FilterGroup.mk [f] [] op).render = f.render) ∧
    (∀ g : FilterGroup, (FilterGroup.mk [] [g] op).render = g.render) ∧
    (∀ fg : FilterGroup, ∀ f : Filter,
      (fg.AddFilter f).Filters = fg.Filters ++ [f] ∧ (fg.AddFilter f).Groups = fg.Groups ∧
        (fg.AddFilter f).Operator = fg.Operator) ∧
    (∀ fg g : FilterGroup,
      (fg.AddGroup g).Groups = fg.Groups ++ [g] ∧ (fg.AddGroup g).Filters = fg.Filters ∧
        (fg.AddGroup g).Operator = fg.Operator) := by
  refine ⟨?_, ?_, ?_, ?_, ?_⟩
  · intro h
    simp only [FilterGroup.render, renderList_eq_map]
    rw [if_neg h]
  · intro f
    simp [FilterGroup.render, FilterGroup.renderList]
  · intro g
    simp [FilterGroup.render, FilterGroup.renderList]
  · exact fun fg f => ⟨rfl, rfl, rfl⟩
  · exact fun fg g => ⟨rfl, rfl, rfl⟩

/-- Witness for C2: a two-filter and-group renders as the two filter
strings joined by the and token inside one pair of parentheses. -/
theorem c2_witness :
    (FilterGroup.mk [Filter.mk "A" "eq" "1" [], Filter.mk "B" "gt" "2" []] [] "~and").render =
      "((A,eq,1)~and(B,gt,2))" := by
  have h := (c2_filter_group_rendering
    [Filter.mk "A" "eq" "1" [], Filter.mk "B" "gt" "2" []] [] "~and").1 (by decide)
  rw [h]; rfl

/-! Per-execute lemmas: each terminal execute returns its builder state
unchanged and issues at most one request, with the exact count determined
by the early-return conditions of the source. -/

theorem bulkCreateExecute_spec (b : BulkCreateBuilder) (oracle : Request → HTTPResponse) :
    (bulkCreateExecute b oracle).1 = b ∧
    (bulkCreateExecute b oracle).2.1.length = (if b.chainErr.isSome then 0 else 1) := by
  unfold bulkCreateExecute clientRequest
  split
  next h => simp [h]
  next h =>
    dsimp only
    split
    · exact ⟨rfl, by simp [h]⟩
    · split <;> exact ⟨rfl, by simp [h]⟩

theorem createBuilderExecute_spec (b : CreateBuilder) (oracle : Request → HTTPResponse) :
    (createBuilderExecute b oracle).1 = b ∧
    (createBuilderExecute b oracle).2.1.length = (if b.chainErr.isSome then 0 else 1) := by
  unfold createBuilderExecute
  split
  next h => simp [h]
  next h =>
    have hlen := (bulkCreateExecute_spec ⟨b.table, [b.data], none⟩ oracle).2
    dsimp only
    rcases hR : (bulkCreateExecute ⟨b.table, [b.data], none⟩ oracle).2.2 with e | ids
    · exact ⟨rfl, by simpa [h] using hlen⟩
    · rcases ids with _ | ⟨id, rest⟩ <;> exact ⟨rfl, by simpa [h] using hlen⟩

theorem tableBulkCreate_spec (t : Table) (data : List RMap) (oracle : Request → HTTPResponse) :
    (tableBulkCreate t data oracle).1 = t ∧
    (tableBulkCreate t data oracle).2.1.length = 1 := by
  unfold tableBulkCreate clientRequest
  dsimp only
  split
  · exact ⟨rfl, rfl⟩
  · split
    · exact ⟨rfl, rfl⟩
    · split <;> exact ⟨rfl, rfl⟩

theorem tableCreate_spec (t : Table) (data : RMap) (oracle : Request → HTTPResponse) :
    (tableCreate t data oracle).1 = t ∧
    (tableCreate t data oracle).2.1.length = 1 := by
  unfold tableCreate
  have hlen := (tableBulkCreate_spec t [data] oracle).2
  dsimp only
  rcases hR : (tableBulkCreate t [data] oracle).2.2 with e | ids
  · exact ⟨rfl, hlen⟩
  · rcases ids with _ | ⟨id, rest⟩ <;> exact ⟨rfl, hlen⟩

theorem readExecute_spec (b : ReadBuilder) (oracle : Request → HTTPResponse) :
    (readExecute b oracle).1 = b ∧
    (readExecute b oracle).2.1.length = (if b.recordID = 0 then 0 else 1) := by
  unfold readExecute clientRequest
  split
  next h => simp [h]
  next h =>
    dsimp only
    split
    · exact ⟨rfl, by simp [h]⟩
    · split <;> exact ⟨rfl, by simp [h]⟩

theorem bulkUpdateExecute_spec (b : BulkUpdateBuilder) (oracle : Request → HTTPResponse) :
    (bulkUpdateExecute b oracle).1 = b ∧
    (bulkUpdateExecute b oracle).2.1.length = (if b.data.isSome then 1 else 0) := by
  unfold bulkUpdateExecute clientRequest
  split
  next h => simp [h]
  next data h =>
    dsimp only
    split <;> exact ⟨rfl, by simp [h]⟩

theorem updateExecute_spec (b : UpdateBuilder) (oracle : Request → HTTPResponse) :
    (updateExecute b oracle).1 = b ∧
    (updateExecute b oracle).2.1.length =
      (if b.recordID = 0 then 0 else if b.data.isSome then 1 else 0) := by
  unfold updateExecute
  split
  next h => simp [h]
  next h =>
    split
    next hdata => simp [h, hdata]
    next data hdata =>
      have hlen := (bulkUpdateExecute_spec
        ⟨b.table, some [mapSet data "Id" (Json.num b.recordID)]⟩ oracle).2
      dsimp only
      rcases hR : (bulkUpdateExecute
          ⟨b.table, some [mapSet data "Id" (Json.num b.recordID)]⟩ oracle).2.2 with e | u
      · exact ⟨rfl, by simpa [h, hdata] using hlen⟩
      · exact ⟨rfl, by simpa [h, hdata] using hlen⟩

theorem bulkDeleteExecute_spec (b : BulkDeleteBuilder) (oracle : Request → HTTPResponse) :
    (bulkDeleteExecute b oracle).1 = b ∧
    (bulkDeleteExecute b oracle).2.1.length = (if b.recordIDs = [] then 0 else 1) := by
  unfold bulkDeleteExecute clientRequest
  split
  next h => simp [h]
  next h =>
    dsimp only
    split <;> exact ⟨rfl, by simp [h]⟩

theorem deleteRecordExecute_spec (b : DeleteBuilder) (oracle : Request → HTTPResponse) :
    (deleteRecordExecute b oracle).1 = b ∧
    (deleteRecordExecute b oracle).2.1.length = (if b.recordID = 0 then 0 else 1) := by
  unfold deleteRecordExecute
  split
  next h => simp [h]
  next h =>
    have hlen := (bulkDeleteExecute_spec ⟨b.table, [b.recordID]⟩ oracle).2
    dsimp only
    rcases hR : (bulkDeleteExecute ⟨b.table, [b.recordID]⟩ oracle).2.2 with e | u
    · exact ⟨rfl, by simpa [h] using hlen⟩
    · exact ⟨rfl, by simpa [h] using hlen⟩

theorem createLinksExecute_spec (b : CreateLinksBuilder) (oracle : Request → HTTPResponse) :
    (createLinksExecute b oracle).1 = b ∧
    (createLinksExecute b oracle).2.1.length =
      (if b.localLinkFieldID = "" ∨ b.localRecordID = 0 ∨ b.targetRecordIDs = []
        then 0 else 1) := by
  unfold createLinksExecute clientRequest
  split
  next h => simp [h]
  next h =>
    split
    next h2 => simp [h, h2]
    next h2 =>
      split
      next h3 => simp [h, h2, h3]
      next h3 =>
        dsimp only
        split <;> exact ⟨rfl, by simp [h, h2, h3]⟩

theorem createLinkExecute_spec (b : CreateLinkBuilder) (oracle : Request → HTTPResponse) :
    (createLinkExecute b oracle).1 = b ∧
    (createLinkExecute b oracle).2.1.length =
      (if b.localLinkFieldID = "" ∨ b.localRecordID = 0 ∨ b.targetRecordID = 0
        then 0 else 1) := by
  unfold createLinkExecute
  split
  next h => simp [h]
  next h =>
    split
    next h2 => simp [h, h2]
    next h2 =>
      split
      next h3 => simp [h, h2, h3]
      next h3 =>
        have hlen := (createLinksExecute_spec
          ⟨b.table, b.localLinkFieldID, b.localRecordID, [b.targetRecordID]⟩ oracle).2
        dsimp only
        rcases hR : (createLinksExecute
            ⟨b.table, b.localLinkFieldID, b.localRecordID, [b.targetRecordID]⟩ oracle).2.2
          with e | u
        · exact ⟨rfl, by simpa [h, h2, h3] using hlen⟩
        · exact ⟨rfl, by simpa [h, h2, h3] using hlen⟩

theorem deleteLinksExecute_spec (b : DeleteLinksBuilder) (oracle : Request → HTTPResponse) :
    (deleteLinksExecute b oracle).1 = b ∧
    (deleteLinksExecute b oracle).2.1.length =
      (if b.localLinkFieldID = "" ∨ b.localRecordID = 0 ∨ b.targetRecordIDs = []
        then 0 else 1) := by
  unfold deleteLinksExecute clientRequest
  split
  next h => simp [h]
  next h =>
    split
    next h2 => simp [h, h2]
    next h2 =>
      split
      next h3 => simp [h, h2, h3]
      next h3 =>
        dsimp only
        split <;> exact ⟨rfl, by simp [h, h2, h3]⟩

theorem deleteLinkExecute_spec (b : DeleteLinkBuilder) (oracle : Request → HTTPResponse) :
    (deleteLinkExecute b oracle).1 = b ∧
    (deleteLinkExecute b oracle).2.1.length =
      (if b.localLinkFieldID = "" ∨ b.localRecordID = 0 ∨ b.targetRecordID = 0
        then 0 else 1) := by
  unfold deleteLinkExecute
  split
  next h => simp [h]
  next h =>
    split
    next h2 => simp [h, h2]
    next h2 =>
      split
      next h3 => simp [h, h2, h3]
      next h3 =>
        have hlen := (deleteLinksExecute_spec
          ⟨b.table, b.localLinkFieldID, b.localRecordID, [b.targetRecordID]⟩ oracle).2
        dsimp only
        rcases hR : (deleteLinksExecute
            ⟨b.table, b.localLinkFieldID, b.localRecordID, [b.targetRecordID]⟩ oracle).2.2
          with e | u
        · exact ⟨rfl, by simpa [h, h2, h3] using hlen⟩
        · exact ⟨rfl, by simpa [h, h2, h3] using hlen⟩

/-- C3: `Client.request` classifies every HTTP response by status code: a
status strictly below 400 returns the raw body with no error; a status of
400 or more returns no body and an error that carries the status code and
the message decoded from the JSON error body, or a decoding-failure error
when the error body is not valid JSON or does not decode as an API
error. -/
theorem c3_request_status_classification (statusCode : Int) (body : Option Json) :
    (statusCode < 400 → requestClassify statusCode body = .ok body) ∧
    (400 ≤ statusCode →
      (∀ j apiErr, body = some j → unmarshalAPIError j = some apiErr →
        requestClassify statusCode body = .error (.apiError statusCode apiErr.Message)) ∧
      (body = none →
        requestClassify statusCode body = .error (.unmarshalAPIErrorFailed statusCode)) ∧
      (∀ j, body = some j → unmarshalAPIError j = none →
        requestClassify statusCode body = .error (.unmarshalAPIErrorFailed statusCode)) ∧
      (∀ r, requestClassify statusCode body ≠ .ok r)) := by
  constructor
  · intro h
    unfold requestClassify
    rw [if_neg (not_le.mpr h)]
  · intro h400
    refine ⟨?_, ?_, ?_, ?_⟩
    · intro j apiErr hbody hdec
      subst hbody
      unfold requestClassify
      rw [if_pos h400]
      simp [hdec]
    · intro hbody
      subst hbody
      unfold requestClassify
      rw [if_pos h400]
    · intro j hbody hdec
      subst hbody
      unfold requestClassify
      rw [if_pos h400]
      simp [hdec]
    · intro r
      unfold requestClassify
      rw [if_pos h400]
      rcases body with _ | j
      · simp
      · rcases hdec : unmarshalAPIError j with _ | apiErr <;> simp [hdec]

/-- Witness for C3: status 200 returns the body, status 404 with a `msg`
error body returns the API error with that message, status 500 with an
invalid JSON body returns the decoding-failure error. -/
theorem c3_witness :
    requestClassify 200 (some (Json.str "x")) = .ok (some (Json.str "x")) ∧
    requestClassify 404 (some (Json.obj [("msg", Json.str "not found")])) =
      .error (.apiError 404 "not found") ∧
    requestClassify 500 none = .error (.unmarshalAPIErrorFailed 500) := by
  refine ⟨(c3_request_status_classification 200 (some (Json.str "x"))).1 (by decide), ?_, ?_⟩
  · exact ((c3_request_status_classification 404
      (some (Json.obj [("msg", Json.str "not found")]))).2 (by decide)).1
      (Json.obj [("msg", Json.str "not found")]) (APIError.mk "not found" "") rfl rfl
  · exact ((c3_request_status_classification 500 none).2 (by decide)).2.1 rfl

/-- C4 counterexample: the claim says every terminal execute call performs
exactly one HTTP round-trip, never zero; but `deleteLinkBuilder.Execute`
with a valid link-field ID and local record ID and a target record ID of
zero returns success after zero round-trips. -/
theorem c4_counterexample :
    (deleteLinkExecute
      (DeleteLinkBuilder.mk (Table.mk (Client.mk "http://h" "tok") "tbl") "fld" 7 0)
      (fun _ => HTTPResponse.mk 200 none)).2.1 = [] ∧
    (deleteLinkExecute
      (DeleteLinkBuilder.mk (Table.mk (Client.mk "http://h" "tok") "tbl") "fld" 7 0)
      (fun _ => HTTPResponse.mk 200 none)).2.2 = .ok () := by
  constructor <;> rfl

/-- C4 (amended): each terminal execute call performs at most one HTTP
round-trip, and exactly one whenever it reaches the transport (no failed
identifier validation, no chain or data-conversion error, and, for the
link, unlink and bulk-delete operations, something to operate on);
single-record operations that delegate to their bulk counterparts still
perform exactly one; the builder state, and with it the client
configuration and the accumulated options, is returned unchanged. -/
theorem c4_single_round_trip_amended (oracle : Request → HTTPResponse)
    (bc : BulkCreateBuilder) (cb : CreateBuilder) (t : Table) (dataOne : RMap)
    (dataList : List RMap) (rb : ReadBuilder) (ub : UpdateBuilder) (bu : BulkUpdateBuilder)
    (db : DeleteBuilder) (bd : BulkDeleteBuilder) (cl : CreateLinkBuilder)
    (cls : CreateLinksBuilder) (dl : DeleteLinkBuilder) (dls : DeleteLinksBuilder) :
    ((bulkCreateExecute bc oracle).1 = bc ∧
      (bulkCreateExecute bc oracle).2.1.length ≤ 1 ∧
      (bc.chainErr = none → (bulkCreateExecute bc oracle).2.1.length = 1)) ∧
    ((createBuilderExecute cb oracle).1 = cb ∧
      (createBuilderExecute cb oracle).2.1.length ≤ 1 ∧
      (cb.chainErr = none → (createBuilderExecute cb oracle).2.1.length = 1)) ∧
    ((tableBulkCreate t dataList oracle).1 = t ∧
      (tableBulkCreate t dataList oracle).2.1.length = 1) ∧
    ((tableCreate t dataOne oracle).1 = t ∧
      (tableCreate t dataOne oracle).2.1.length = 1) ∧
    ((readExecute rb oracle).1 = rb ∧
      (readExecute rb oracle).2.1.length ≤ 1 ∧
      (rb.recordID ≠ 0 → (readExecute rb oracle).2.1.length = 1)) ∧
    ((updateExecute ub oracle).1 = ub ∧
      (updateExecute ub oracle).2.1.length ≤ 1 ∧
      (ub.recordID ≠ 0 → ub.data.isSome → (updateExecute ub oracle).2.1.length = 1)) ∧
    ((bulkUpdateExecute bu oracle).1 = bu ∧
      (bulkUpdateExecute bu oracle).2.1.length ≤ 1 ∧
      (bu.data.isSome → (bulkUpdateExecute bu oracle).2.1.length = 1)) ∧
    ((deleteRecordExecute db oracle).1 = db ∧
      (deleteRecordExecute db oracle).2.1.length ≤ 1 ∧
      (db.recordID ≠ 0 → (deleteRecordExecute db oracle).2.1.length = 1)) ∧
    ((bulkDeleteExecute bd oracle).1 = bd ∧
      (bulkDeleteExecute bd oracle).2.1.length ≤ 1 ∧
      (bd.recordIDs ≠ [] → (bulkDeleteExecute bd oracle).2.1.length = 1)) ∧
    ((createLinkExecute cl oracle).1 = cl ∧
      (createLinkExecute cl oracle).2.1.length ≤ 1 ∧
      (cl.localLinkFieldID ≠ "" → cl.localRecordID ≠ 0 → cl.targetRecordID ≠ 0 →
        (createLinkExecute cl oracle).2.1.length = 1)) ∧
    ((createLinksExecute cls oracle).1 = cls ∧
      (createLinksExecute cls oracle).2.1.length ≤ 1 ∧
      (cls.localLinkFieldID ≠ "" → cls.localRecordID ≠ 0 → cls.targetRecordIDs ≠ [] →
        (createLinksExecute cls oracle).2.1.length = 1)) ∧
    ((deleteLinkExecute dl oracle).1 = dl ∧
      (deleteLinkExecute dl oracle).2.1.length ≤ 1 ∧
      (dl.localLinkFieldID ≠ "" → dl.localRecordID ≠ 0 → dl.targetRecordID ≠ 0 →
        (deleteLinkExecute dl oracle).2.1.length = 1)) ∧
    ((deleteLinksExecute dls oracle).1 = dls ∧
      (deleteLinksExecute dls oracle).2.1.length ≤ 1 ∧
      (dls.localLinkFieldID ≠ "" → dls.localRecordID ≠ 0 → dls.targetRecordIDs ≠ [] →
        (deleteLinksExecute dls oracle).2.1.length = 1)) := by
  refine ⟨⟨(bulkCreateExecute_spec bc oracle).1, ?_, ?_⟩,
    ⟨(createBuilderExecute_spec cb oracle).1, ?_, ?_⟩,
    ⟨(tableBulkCreate_spec t dataList oracle).1, (tableBulkCreate_spec t dataList oracle).2⟩,
    ⟨(tableCreate_spec t dataOne oracle).1, (tableCreate_spec t dataOne oracle).2⟩,
    ⟨(readExecute_spec rb oracle).1, ?_, ?_⟩,
    ⟨(updateExecute_spec ub oracle).1, ?_, ?_⟩,
    ⟨(bulkUpdateExecute_spec bu oracle).1, ?_, ?_⟩,
    ⟨(deleteRecordExecute_spec db oracle).1, ?_, ?_⟩,
    ⟨(bulkDeleteExecute_spec bd oracle).1, ?_, ?_⟩,
    ⟨(createLinkExecute_spec cl oracle).1, ?_, ?_⟩,
    ⟨(createLinksExecute_spec cls oracle).1, ?_, ?_⟩,
    ⟨(deleteLinkExecute_spec dl oracle).1, ?_, ?_⟩,
    ⟨(deleteLinksExecute_spec dls oracle).1, ?_, ?_⟩⟩
  · rw [(bulkCreateExecute_spec bc oracle).2]; split <;> omega
  · intro h; rw [(bulkCreateExecute_spec bc oracle).2]; simp [h]
  · rw [(createBuilderExecute_spec cb oracle).2]; split <;> omega
  · intro h; rw [(createBuilderExecute_spec cb oracle).2]; simp [h]
  · rw [(readExecute_spec rb oracle).2]; split <;> omega
  · intro h; rw [(readExecute_spec rb oracle).2]; simp [h]
  · rw [(updateExecute_spec ub oracle).2]; split
    · omega
    · split <;> omega
  · intro h hd; rw [(updateExecute_spec ub oracle).2]; simp [h, hd]
  · rw [(bulkUpdateExecute_spec bu oracle).2]; split <;> omega
  · intro h; rw [(bulkUpdateExecute_spec bu oracle).2]; simp [h]
  · rw [(deleteRecordExecute_spec db oracle).2]; split <;> omega
  · intro h; rw [(deleteRecordExecute_spec db oracle).2]; simp [h]
  · rw [(bulkDeleteExecute_spec bd oracle).2]; split <;> omega
  · intro h; rw [(bulkDeleteExecute_spec bd oracle).2]; simp [h]
  · rw [(createLinkExecute_spec cl oracle).2]; split <;> omega
  · intro h1 h2 h3; rw [(createLinkExecute_spec cl oracle).2]; simp [h1, h2, h3]
  · rw [(createLinksExecute_spec cls oracle).2]; split <;> omega
  · intro h1 h2 h3; rw [(createLinksExecute_spec cls oracle).2]; simp [h1, h2, h3]
  · rw [(deleteLinkExecute_spec dl oracle).2]; split <;> omega
  · intro h1 h2 h3; rw [(deleteLinkExecute_spec dl oracle).2]; simp [h1, h2, h3]
  · rw [(deleteLinksExecute_spec dls oracle).2]; split <;> omega
  · intro h1 h2 h3; rw [(deleteLinksExecute_spec dls oracle).2]; simp [h1, h2, h3]

/-- C5: operations that require an identifier validate it before calling
the transport: a single-record read, update or delete with record ID zero
returns the row-ID-required error with no HTTP request; a link or unlink
operation with an empty link-field ID returns the link-field-ID-required
error with no request, and with the field ID present but local record ID
zero returns the row-ID-required error with no request. -/
theorem c5_identifier_validation (oracle : Request → HTTPResponse) (rb : ReadBuilder)
    (ub : UpdateBuilder) (db : DeleteBuilder) (cl : CreateLinkBuilder)
    (cls : CreateLinksBuilder) (dl : DeleteLinkBuilder) (dls : DeleteLinksBuilder) :
    (rb.recordID = 0 → readExecute rb oracle = (rb, [], .error .rowIDRequired)) ∧
    (ub.recordID = 0 → updateExecute ub oracle = (ub, [], .error .rowIDRequired)) ∧
    (db.recordID = 0 → deleteRecordExecute db oracle = (db, [], .error .rowIDRequired)) ∧
    (cl.localLinkFieldID = "" →
      createLinkExecute cl oracle = (cl, [], .error .linkFieldIDRequired)) ∧
    (cl.localLinkFieldID ≠ "" → cl.localRecordID = 0 →
      createLinkExecute cl oracle = (cl, [], .error .rowIDRequired)) ∧
    (cls.localLinkFieldID = "" →
      createLinksExecute cls oracle = (cls, [], .error .linkFieldIDRequired)) ∧
    (cls.localLinkFieldID ≠ "" → cls.localRecordID = 0 →
      createLinksExecute cls oracle = (cls, [], .error .rowIDRequired)) ∧
    (dl.localLinkFieldID = "" →
      deleteLinkExecute dl oracle = (dl, [], .error .linkFieldIDRequired)) ∧
    (dl.localLinkFieldID ≠ "" → dl.localRecordID = 0 →
      deleteLinkExecute dl oracle = (dl, [], .error .rowIDRequired)) ∧
    (dls.localLinkFieldID = "" →
      deleteLinksExecute dls oracle = (dls, [], .error .linkFieldIDRequired)) ∧
    (dls.localLinkFieldID ≠ "" → dls.localRecordID = 0 →
      deleteLinksExecute dls oracle = (dls, [], .error .rowIDRequired)) := by
  refine ⟨?_, ?_, ?_, ?_, ?_, ?_, ?_, ?_, ?_, ?_, ?_⟩
  · intro h; simp [readExecute, h]
  · intro h; simp [updateExecute, h]
  · intro h; simp [deleteRecordExecute, h]
  · intro h; simp [createLinkExecute, h]
  · intro h1 h2; simp [createLinkExecute, h1, h2]
  · intro h; simp [createLinksExecute, h]
  · intro h1 h2; simp [createLinksExecute, h1, h2]
  · intro h; simp [deleteLinkExecute, h]
  · intro h1 h2; simp [deleteLinkExecute, h1, h2]
  · intro h; simp [deleteLinksExecute, h]
  · intro h1 h2; simp [deleteLinksExecute, h1, h2]

/-- Witness for C5: a read with record ID zero fails with the
row-ID-required error and no request, and an unlink with an empty
link-field ID fails with the link-field-ID-required error and no
request. -/
theorem c5_witness :
    readExecute (ReadBuilder.mk (Table.mk (Client.mk "http://h" "tok") "tbl") 0 [])
      (fun _ => HTTPResponse.mk 200 none) =
      (ReadBuilder.mk (Table.mk (Client.mk "http://h" "tok") "tbl") 0 [], [],
        .error .rowIDRequired) ∧
    deleteLinkExecute (DeleteLinkBuilder.mk (Table.mk (Client.mk "http://h" "tok") "tbl") "" 7 3)
      (fun _ => HTTPResponse.mk 200 none) =
      (DeleteLinkBuilder.mk (Table.mk (Client.mk "http://h" "tok") "tbl") "" 7 3, [],
        .error .linkFieldIDRequired) := by
  have h := c5_identifier_validation (fun _ => HTTPResponse.mk 200 none)
    (ReadBuilder.mk (Table.mk (Client.mk "http://h" "tok") "tbl") 0 [])
    (UpdateBuilder.mk (Table.mk (Client.mk "http://h" "tok") "tbl") 0 none)
    (DeleteBuilder.mk (Table.mk (Client.mk "http://h" "tok") "tbl") 0)
    (CreateLinkBuilder.mk (Table.mk (Client.mk "http://h" "tok") "tbl") "" 7 3)
    (CreateLinksBuilder.mk (Table.mk (Client.mk "http://h" "tok") "tbl") "" 7 [3])
    (DeleteLinkBuilder.mk (Table.mk (Client.mk "http://h" "tok") "tbl") "" 7 3)
    (DeleteLinksBuilder.mk (Table.mk (Client.mk "http://h" "tok") "tbl") "" 7 [3])
  exact ⟨h.1 rfl, h.2.2.2.2.2.2.2.1 rfl⟩

/-! Query-lookup helper lemmas for the pagination claim. -/

theorem find?_filter_ne (q : List (String × String)) (k k2 : String) (h : k2 ≠ k) :
    (q.filter (fun kv => kv.1 ≠ k)).find? (fun kv => kv.1 = k2) =
      q.find? (fun kv => kv.1 = k2) := by
  rw [List.find?_filter]
  congr 1
  funext a
  by_cases ha : a.1 = k2
  · have hak : ¬ a.1 = k := by rw [ha]; exact h
    simp [ha, hak, h]
  · simp [ha]

theorem qget_qset_same (q : List (String × String)) (k v : String) :
    qget (qset q k v) k = some v := by
  unfold qget qset
  rw [List.find?_append]
  have h1 : (q.filter (fun kv => kv.1 ≠ k)).find? (fun kv => kv.1 = k) = none := by
    rw [List.find?_eq_none]
    intro x hx
    rcases List.mem_filter.mp hx with ⟨-, hne⟩
    simp at hne
    simp [hne]
  simp [h1]

theorem qget_qset_other (q : List (String × String)) (k v k2 : String) (h : k2 ≠ k) :
    qget (qset q k v) k2 = qget q k2 := by
  have hkk2 : ¬ (k = k2) := fun hh => h hh.symm
  unfold qget qset
  rw [List.find?_append, find?_filter_ne q k k2 h]
  simp [hkk2]

theorem qget_absent (q : List (String × String)) (k : String)
    (h : ∀ kv ∈ q, kv.1 ≠ k) : qget q k = none := by
  unfold qget
  have hq : q.find? (fun kv => kv.1 = k) = none := by
    rw [List.find?_eq_none]
    intro x hx
    simpa using h x hx
  simp [hq]

theorem qget_append (A B : List (String × String)) (k : String) :
    qget (A ++ B) k = (qget A k).or (qget B k) := by
  unfold qget
  rw [List.find?_append]
  rcases hA : A.find? (fun kv => kv.1 = k) with _ | x <;> simp [hA]

theorem qget_map_const_ne (k0 : String) (fs : List String) (k : String) (h : k0 ≠ k) :
    qget (fs.map (fun f => (k0, f))) k = none := by
  unfold qget
  have hfind : (fs.map (fun f => (k0, f))).find? (fun kv => kv.1 = k) = none := by
    rw [List.find?_eq_none]
    intro x hx
    rcases List.mem_map.mp hx with ⟨f, -, rfl⟩
    simpa using h
  simp [hfind]

theorem qget_ite_singleton_ne (c : Prop) [Decidable c] (k0 v k : String) (h : k0 ≠ k) :
    qget (if c then [(k0, v)] else []) k = none := by
  split
  · simp [qget, h]
  · rfl

theorem qget_ite_singleton_same (c : Prop) [Decidable c] (k v : String) :
    qget (if c then [(k, v)] else []) k = (if c then some v else none) := by
  split
  · simp [qget]
  · rfl

/-- C6: pagination is passed through unchanged; for page and page size at
least one, `Page` sets the limit to the page size and the offset to
`(page - 1) * pageSize`, both on the pagination provider and on the list
builder; when the query is rendered, the configured limit and offset
appear verbatim as the `limit` and `offset` parameters, each omitted
exactly when its value is not strictly positive. -/
theorem c6_pagination_passthrough (p : PaginationState) (page pageSize : Int)
    (b : ListBuilder) (q : List (String × String)) :
    (1 ≤ page → 1 ≤ pageSize →
      (paginationPage p page pageSize).rawLimit = pageSize ∧
      (paginationPage p page pageSize).rawOffset = (page - 1) * pageSize ∧
      (b.Page page pageSize).limit = pageSize ∧
      (b.Page page pageSize).offset = (page - 1) * pageSize) ∧
    ((∀ kv ∈ q, kv.1 ≠ "limit") → (∀ kv ∈ q, kv.1 ≠ "offset") →
      qget (paginationApply p q) "limit" =
        (if 0 < p.rawLimit then some (toString p.rawLimit) else none) ∧
      qget (paginationApply p q) "offset" =
        (if 0 < p.rawOffset then some (toString p.rawOffset) else none)) ∧
    (qget b.executeQuery "limit" =
      (if 0 < b.limit then some (toString b.limit) else none)) ∧
    (qget b.executeQuery "offset" =
      (if 0 < b.offset then some (toString b.offset) else none)) := by
  refine ⟨?_, ?_, ?_, ?_⟩
  · intro hp hps
    have h1 : ¬ (page < 1 ∨ pageSize < 1) := by omega
    have h2 : ¬ page < 1 := by omega
    have h3 : ¬ pageSize < 1 := by omega
    refine ⟨?_, ?_, ?_, ?_⟩ <;> simp [paginationPage, ListBuilder.Page, h1, h2, h3]
  · intro hL hO
    unfold paginationApply
    dsimp only
    by_cases h1 : 0 < p.rawLimit
    · by_cases h2 : 0 < p.rawOffset
      · rw [if_pos h1, if_pos h2]
        constructor
        · rw [qget_qset_other _ "offset" _ "limit" (by decide), qget_qset_same, if_pos h1]
        · rw [qget_qset_same, if_pos h2]
      · rw [if_pos h1, if_neg h2]
        constructor
        · rw [qget_qset_same, if_pos h1]
        · rw [if_neg h2, qget_qset_other _ "limit" _ "offset" (by decide)]
          exact qget_absent q "offset" hO
    · by_cases h2 : 0 < p.rawOffset
      · rw [if_neg h1, if_pos h2]
        constructor
        · rw [if_neg h1, qget_qset_other _ "offset" _ "limit" (by decide)]
          exact qget_absent q "limit" hL
        · rw [qget_qset_same, if_pos h2]
      · rw [if_neg h1, if_neg h2]
        exact ⟨by rw [if_neg h1]; exact qget_absent q "limit" hL,
          by rw [if_neg h2]; exact qget_absent q "offset" hO⟩
  · rw [ListBuilder.executeQuery, qget_append, qget_append, qget_append, qget_append,
      qget_append, qget_map_const_ne "where" _ _ (by decide),
      qget_ite_singleton_ne _ "sort" _ _ (by decide),
      qget_ite_singleton_same _ "limit" _,
      qget_ite_singleton_ne _ "offset" _ _ (by decide),
      qget_ite_singleton_ne _ "fields" _ _ (by decide),
      qget_ite_singleton_ne _ "shuffle" _ _ (by decide)]
    simp
  · rw [ListBuilder.executeQuery, qget_append, qget_append, qget_append, qget_append,
      qget_append, qget_map_const_ne "where" _ _ (by decide),
      qget_ite_singleton_ne _ "sort" _ _ (by decide),
      qget_ite_singleton_ne _ "limit" _ _ (by decide),
      qget_ite_singleton_same _ "offset" _,
      qget_ite_singleton_ne _ "fields" _ _ (by decide),
      qget_ite_singleton_ne _ "shuffle" _ _ (by decide)]
    simp

/-- Witness for C6: page three with page size ten gives limit ten and
offset twenty, rendered verbatim in the query; a fresh provider with no
pagination renders no limit parameter. -/
theorem c6_witness :
    (paginationPage (PaginationState.mk 0 0) 3 10).rawLimit = 10 ∧
    (paginationPage (PaginationState.mk 0 0) 3 10).rawOffset = 20 ∧
    qget (paginationApply (paginationPage (PaginationState.mk 0 0) 3 10) []) "limit" =
      some "10" ∧
    qget (paginationApply (paginationPage (PaginationState.mk 0 0) 3 10) []) "offset" =
      some "20" ∧
    qget (paginationApply (PaginationState.mk 0 0) []) "limit" = none := by
  have h1 := (c6_pagination_passthrough (PaginationState.mk 0 0) 3 10
    (ListBuilder.mk (Table.mk (Client.mk "u" "t") "tbl") [] [] 0 0 [] false) []).1
    (by decide) (by decide)
  have h2 := (c6_pagination_passthrough (paginationPage (PaginationState.mk 0 0) 3 10) 3 10
    (ListBuilder.mk (Table.mk (Client.mk "u" "t") "tbl") [] [] 0 0 [] false) []).2.1
    (by intro kv hkv; cases hkv) (by intro kv hkv; cases hkv)
  have h3 := (c6_pagination_passthrough (PaginationState.mk 0 0) 3 10
    (ListBuilder.mk (Table.mk (Client.mk "u" "t") "tbl") [] [] 0 0 [] false) []).2.1
    (by intro kv hkv; cases hkv) (by intro kv hkv; cases hkv)
  refine ⟨h1.1, by rw [h1.2.1]; decide, ?_, ?_, ?_⟩
  · rw [h2.1, if_pos (by rw [h1.1]; decide), h1.1]
    decide
  · rw [h2.2, if_pos (by rw [h1.2.1]; decide), h1.2.1]
    decide
  · rw [h3.1, if_neg (by decide)]

/-- Witness for C4: a valid single-record read and a valid two-sided
unlink each issue exactly one request. -/
theorem c4_witness :
    (readExecute (ReadBuilder.mk (Table.mk (Client.mk "http://h" "tok") "tbl") 5 [])
      (fun _ => HTTPResponse.mk 200 none)).2.1.length = 1 ∧
    (deleteLinksExecute
      (DeleteLinksBuilder.mk (Table.mk (Client.mk "http://h" "tok") "tbl") "fld" 7 [3])
      (fun _ => HTTPResponse.mk 200 none)).2.1.length = 1 := by
  obtain ⟨-, -, -, -, hrb, -, -, -, -, -, -, -, hdls⟩ :=
    c4_single_round_trip_amended (fun _ => HTTPResponse.mk 200 none)
      (BulkCreateBuilder.mk (Table.mk (Client.mk "http://h" "tok") "tbl") [] none)
      (CreateBuilder.mk (Table.mk (Client.mk "http://h" "tok") "tbl") [] none)
      (Table.mk (Client.mk "http://h" "tok") "tbl") [] []
      (ReadBuilder.mk (Table.mk (Client.mk "http://h" "tok") "tbl") 5 [])
      (UpdateBuilder.mk (Table.mk (Client.mk "http://h" "tok") "tbl") 5 (some []))
      (BulkUpdateBuilder.mk (Table.mk (Client.mk "http://h" "tok") "tbl") (some []))
      (DeleteBuilder.mk (Table.mk (Client.mk "http://h" "tok") "tbl") 5)
      (BulkDeleteBuilder.mk (Table.mk (Client.mk "http://h" "tok") "tbl") [5])
      (CreateLinkBuilder.mk (Table.mk (Client.mk "http://h" "tok") "tbl") "fld" 7 3)
      (CreateLinksBuilder.mk (Table.mk (Client.mk "http://h" "tok") "tbl") "fld" 7 [3])
      (DeleteLinkBuilder.mk (Table.mk (Client.mk "http://h" "tok") "tbl") "fld" 7 3)
      (DeleteLinksBuilder.mk (Table.mk (Client.mk "http://h" "tok") "tbl") "fld" 7 [3])
  exact ⟨hrb.2.2 (by decide), hdls.2.2 (by decide) (by decide) (by decide)⟩

/-- C7: the decoder succeeds exactly when the marshal step and the
unmarshal step both succeed, the result is the round-tripped value, and
either failure is returned wrapped with its step. -/
theorem c7_decode_roundtrip {α β E : Type} (marshal : α → Except E String)
    (unmarshal : String → Except E β) (data : α) :
    (∀ v : β, decodeInto marshal unmarshal data = .ok v ↔
      ∃ bs, marshal data = .ok bs ∧ unmarshal bs = .ok v) ∧
    (∀ e, marshal data = .error e →
      decodeInto marshal unmarshal data = .error (.marshalFailed e)) ∧
    (∀ bs e, marshal data = .ok bs → unmarshal bs = .error e →
      decodeInto marshal unmarshal data = .error (.unmarshalFailed e)) := by
  refine ⟨?_, ?_, ?_⟩
  · intro v
    constructor
    · intro hok
      rcases hm : marshal data with e | bs
      · simp [decodeInto, hm] at hok
      · rcases hu : unmarshal bs with e | v2
        · simp [decodeInto, hm, hu] at hok
        · simp [decodeInto, hm, hu] at hok
          exact ⟨bs, rfl, by rw [hu, hok]⟩
    · rintro ⟨bs, hm, hu⟩
      simp [decodeInto, hm, hu]
  · intro e hm
    simp [decodeInto, hm]
  · intro bs e hm hu
    simp [decodeInto, hm, hu]

/-- Witness for C7: a decoder whose marshal step renders a number and
whose unmarshal step takes the text's length succeeds with the
round-tripped value. -/
theorem c7_witness :
    decodeInto (fun n : Nat => (Except.ok (toString n) : Except String String))
      (fun s : String => (Except.ok s.length : Except String Nat)) 12 = .ok 2 := by
  exact ((c7_decode_roundtrip
    (fun n : Nat => (Except.ok (toString n) : Except String String))
    (fun s : String => (Except.ok s.length : Except String Nat)) 12).1 2).mpr ⟨"12", rfl, rfl⟩

/-- C8: filter methods that receive nothing to filter on are no-ops: an
empty value list for the in, all-of, any-of, not-all-of and not-any-of
methods, or an empty raw filter string, leaves the accumulated filter list
exactly as it was. -/
theorem c8_empty_filters_noop (fs : List String) (column : String) :
    filterable.Where fs "" = fs ∧
    filterable.WhereIsIn fs column [] = fs ∧
    filterable.WhereIsAllOf fs column [] = fs ∧
    filterable.WhereIsAnyOf fs column [] = fs ∧
    filterable.WhereIsNotAllOf fs column [] = fs ∧
    filterable.WhereIsNotAnyOf fs column [] = fs ∧
    filters.Where fs "" = fs ∧
    filters.WhereIsIn fs column [] = fs := by
  refine ⟨?_, rfl, rfl, rfl, rfl, rfl, ?_, rfl⟩ <;> rfl

/-- C9: unlinking nothing succeeds silently; with a valid link-field ID
and local record ID, a single unlink with target record ID zero and a
bulk unlink with an empty target list both return success and issue no
HTTP request. -/
theorem c9_unlink_nothing_succeeds (oracle : Request → HTTPResponse)
    (dl : DeleteLinkBuilder) (dls : DeleteLinksBuilder) :
    (dl.localLinkFieldID ≠ "" → dl.localRecordID ≠ 0 → dl.targetRecordID = 0 →
      deleteLinkExecute dl oracle = (dl, [], .ok ())) ∧
    (dls.localLinkFieldID ≠ "" → dls.localRecordID ≠ 0 → dls.targetRecordIDs = [] →
      deleteLinksExecute dls oracle = (dls, [], .ok ())) := by
  constructor
  · intro h1 h2 h3
    simp [deleteLinkExecute, h1, h2, h3]
  · intro h1 h2 h3
    simp [deleteLinksExecute, h1, h2, h3]

/-- Witness for C9 at a concrete builder with link-field ID `fld` and
local record ID seven. -/
theorem c9_witness :
    deleteLinkExecute
      (DeleteLinkBuilder.mk (Table.mk (Client.mk "http://h" "tok") "tbl") "fld" 7 0)
      (fun _ => HTTPResponse.mk 200 none) =
      (DeleteLinkBuilder.mk (Table.mk (Client.mk "http://h" "tok") "tbl") "fld" 7 0, [],
        .ok ()) ∧
    deleteLinksExecute
      (DeleteLinksBuilder.mk (Table.mk (Client.mk "http://h" "tok") "tbl") "fld" 7 [])
      (fun _ => HTTPResponse.mk 200 none) =
      (DeleteLinksBuilder.mk (Table.mk (Client.mk "http://h" "tok") "tbl") "fld" 7 [], [],
        .ok ()) := by
  have h := c9_unlink_nothing_succeeds (fun _ => HTTPResponse.mk 200 none)
    (DeleteLinkBuilder.mk (Table.mk (Client.mk "http://h" "tok") "tbl") "fld" 7 0)
    (DeleteLinksBuilder.mk (Table.mk (Client.mk "http://h" "tok") "tbl") "fld" 7 [])
  exact ⟨h.1 (by decide) (by decide) rfl, h.2 (by decide) (by decide) rfl⟩

/-- C10: when the bulk-create response decodes as a list of JSON objects,
the returned IDs are, in response order, the truncations of the numeric
`Id` fields, records whose `Id` is absent or not a number being skipped
without error, so the ID list can be shorter than the response. -/
theorem c10_bulk_create_ids (b : BulkCreateBuilder) (oracle : Request → HTTPResponse)
    (j : Json) (response : List RMap) (hchain : b.chainErr = none)
    (hstatus : (oracle (Request.mk "POST"
      ("/api/v2/tables/" ++ b.table.tableID ++ "/records")
      (some (Json.arr (b.data.map Json.obj))) [] b.table.client.apiToken)).statusCode < 400)
    (hbody : (oracle (Request.mk "POST"
      ("/api/v2/tables/" ++ b.table.tableID ++ "/records")
      (some (Json.arr (b.data.map Json.obj))) [] b.table.client.apiToken)).body = some j)
    (hdec : unmarshalRMapList j = some response) :
    (bulkCreateExecute b oracle).2.2 = .ok (extractIds response) ∧
    extractIds response = response.filterMap recordIdAsNumber ∧
    (extractIds response).length ≤ response.length ∧
    (∀ record : RMap, ∀ q2 : Rat, jsonLookup record "Id" = some (Json.num q2) →
      recordIdAsNumber record = some (ratTrunc q2)) ∧
    (∀ record : RMap, jsonLookup record "Id" = none → recordIdAsNumber record = none) := by
  refine ⟨?_, rfl, List.length_filterMap_le _ _, ?_, ?_⟩
  · have hcls : requestClassify (oracle (Request.mk "POST"
        ("/api/v2/tables/" ++ b.table.tableID ++ "/records")
        (some (Json.arr (b.data.map Json.obj))) [] b.table.client.apiToken)).statusCode
        (oracle (Request.mk "POST"
        ("/api/v2/tables/" ++ b.table.tableID ++ "/records")
        (some (Json.arr (b.data.map Json.obj))) [] b.table.client.apiToken)).body =
        .ok (some j) := by
      unfold requestClassify
      rw [if_neg (not_le.mpr hstatus), hbody]
    simp [bulkCreateExecute, clientRequest, hchain, hcls, hdec]
  · intro record q2 hq
    simp [recordIdAsNumber, hq]
  · intro record hq
    simp [recordIdAsNumber, hq]

/-- Witness for C10: a response of three objects whose `Id` fields are the
number five, a missing field, and the number fifteen halves yields the IDs
five and seven, shorter than the response. -/
theorem c10_witness :
    (bulkCreateExecute
      (BulkCreateBuilder.mk (Table.mk (Client.mk "http://h" "tok") "tbl") [[]] none)
      (fun _ => HTTPResponse.mk 200 (some (Json.arr
        [Json.obj [("Id", Json.num 5)], Json.obj [("Name", Json.str "x")],
          Json.obj [("Id", Json.num (mkRat 15 2))]])))).2.2 = .ok [5, 7] := by
  have h := c10_bulk_create_ids
    (BulkCreateBuilder.mk (Table.mk (Client.mk "http://h" "tok") "tbl") [[]] none)
    (fun _ => HTTPResponse.mk 200 (some (Json.arr
      [Json.obj [("Id", Json.num 5)], Json.obj [("Name", Json.str "x")],
        Json.obj [("Id", Json.num (mkRat 15 2))]])))
    (Json.arr [Json.obj [("Id", Json.num 5)], Json.obj [("Name", Json.str "x")],
      Json.obj [("Id", Json.num (mkRat 15 2))]])
    [[("Id", Json.num 5)], [("Name", Json.str "x")], [("Id", Json.num (mkRat 15 2))]]
    rfl (by decide) rfl rfl
  rw [h.1]
  have hval : extractIds
      [[("Id", Json.num 5)], [("Name", Json.str "x")], [("Id", Json.num (mkRat 15 2))]] =
      [5, 7] := by decide
  rw [hval]

end Nocodb
